import Mathlib

/-!
Shallow embedding of the datasheet parsing engine of `combined_scraper.py`
(the functions `_get_cable_description`, `_extract_parameter_value`,
`_get_tube_type`, `_get_detailed_fiber_type`, `_get_nesc_condition`,
`_get_cable_type`, `_get_fiber_type`, `_parse_single_datasheet`,
`parse_datasheets` and `validate_json_output`), together with proofs of the
specification claims about it.

Python strings are modelled as `List Char`.  The regular expressions used
by the source are simple enough that leftmost greedy matching never needs
backtracking (every quantifier is followed by a literal that cannot occur
inside the quantified class), so each pattern is embedded as a
deterministic matcher that consumes maximal runs, plus a scanner that
tries every start position from the left, exactly as `re.search` /
`re.findall` do.
-/

namespace CombinedScraper

/-- Python `str` as a list of characters. -/
abbrev Text := List Char

/-- Python `\s` whitespace class (ASCII part, which is all the source texts use). -/
def pySpace (c : Char) : Bool :=
  c == ' ' || c == '\t' || c == '\n' || c == '\r' || c == '\x0b' || c == '\x0c'

/-- Python `str.lower()` (ASCII case folding, which is all the source needs). -/
def lowerL (l : Text) : Text := l.map Char.toLower

/-- Case-sensitive list prefix test (helper for Python substring `in`). -/
def isPrefixL : Text → Text → Bool
  | [], _ => true
  | _ :: _, [] => false
  | a :: as, b :: bs => a == b && isPrefixL as bs

/-- Python case-sensitive substring test `needle in hay`. -/
def containsL (needle : Text) : Text → Bool
  | [] => isPrefixL needle []
  | b :: bs => isPrefixL needle (b :: bs) || containsL needle bs

/-- Case-insensitive literal consumption: drops a literal (matched with
`re.IGNORECASE` semantics) from the front, returning the rest. -/
def dropLitCI : Text → Text → Option Text
  | [], l => some l
  | _ :: _, [] => none
  | a :: as, b :: bs => if a.toLower == b.toLower then dropLitCI as bs else none

/-- Greedy `\d+`: the maximal nonempty digit run at the front, with the rest. -/
def takeDigits1 (l : Text) : Option (Text × Text) :=
  let ds := l.takeWhile Char.isDigit
  if ds = [] then none else some (ds, l.dropWhile Char.isDigit)

/-- Python `str.strip()`. -/
def pyStrip (l : Text) : Text :=
  ((l.dropWhile pySpace).reverse.dropWhile pySpace).reverse

/-- The Text Normalizer, `re.sub(r'\s+', ' ', text)` (combined_scraper.py line 79):
every maximal whitespace run becomes a single space. -/
def normalizeWs : Text → Text
  | [] => []
  | [c] => if pySpace c then [' '] else [c]
  | c :: d :: cs =>
    if pySpace c then
      if pySpace d then normalizeWs (d :: cs) else ' ' :: normalizeWs (d :: cs)
    else c :: normalizeWs (d :: cs)

/-- Python `int` on a (nonempty) digit string, the sort key used at line 176. -/
def natOfDigits (l : Text) : Nat :=
  l.foldl (fun acc c => acc * 10 + (c.toNat - 48)) 0

/-- Stable insertion used to model Python's stable `sorted(..., key=int)`. -/
def insertByVal (a : Text) : List Text → List Text
  | [] => [a]
  | b :: bs => if natOfDigits a ≤ natOfDigits b then a :: b :: bs else b :: insertByVal a bs

/-- Python `sorted(l, key=int)` (stable, sorts by numeric value). -/
def sortByVal : List Text → List Text
  | [] => []
  | a :: as => insertByVal a (sortByVal as)

/-- Duplicate removal, modelling `list(set(...))` at line 176.  CPython's set
iteration order is unspecified; we fix the first-occurrence order.  Every
claim proved below is insensitive to this choice: the subsequent sort by
numeric value determines the result whenever the numeric keys are distinct,
and the remaining facts (membership, nodup, sortedness) hold for any order. -/
def dedupF : List Text → List Text
  | [] => []
  | a :: as => a :: (dedupF as).filter (fun b => b ≠ a)

/-- Scanner for `re.findall(r'(\d+)F', text)` (line 173).  The accumulator
holds the digit run read so far; a run is emitted exactly when it is
nonempty and immediately followed by a capital `F`, matching leftmost
greedy semantics of the pattern (backtracking inside `\d+` can never
succeed because the follower `F` is not a digit). -/
def scanFCAux : Text → Text → List Text
  | _, [] => []
  | run, c :: cs =>
    if c.isDigit then scanFCAux (run ++ [c]) cs
    else if c == 'F' && run ≠ [] then run :: scanFCAux [] cs
    else scanFCAux [] cs

/-- `re.findall(r'(\d+)F', text)` on the raw (non-normalized) text. -/
def pyFindallDF (text : Text) : List Text := scanFCAux [] text

/-- The Fiber-Count Detector, lines 173-176:
`sorted(list(set(re.findall(r'(\d+)F', text))), key=int)`. -/
def fiberCountsOf (text : Text) : List Text :=
  sortByVal (dedupF (pyFindallDF text))

/-- Concatenation of tokens separated by single spaces (used to state the
"tokens in any order / repetition" scenario of the spec). -/
def sepJoin : List Text → Text
  | [] => []
  | [t] => t
  | t :: u :: ts => t ++ ' ' :: sepJoin (u :: ts)

/-- Python `", ".join(l)`. -/
def joinSep (sep : Text) : List Text → Text
  | [] => []
  | [t] => t
  | t :: u :: ts => t ++ sep ++ joinSep sep (u :: ts)

/-! ## Regex matchers

Each `...At` function decides whether one of the source's patterns matches
at the start of the list, returning the captured group together with the
rest of the input after the match; `searchG` turns such a matcher into
`re.search` (leftmost match), and `findAllAux` into `re.findall`
(non-overlapping leftmost matches). -/

/-- `re.search`: try the matcher at every position from the left. -/
def searchG (m : Text → Option (Text × Text)) : Text → Option Text
  | [] => (m []).map Prod.fst
  | c :: cs =>
    match m (c :: cs) with
    | some (g, _) => some g
    | none => searchG m cs

/-- `re.findall` for a matcher whose matches consume at least one character;
the fuel argument (initialised to the input length) bounds the number of
scanning steps and is never exhausted on such matchers. -/
def findAllAux (m : Text → Option (Text × Text)) : Nat → Text → List Text
  | 0, _ => []
  | _, [] => []
  | fuel + 1, c :: cs =>
    match m (c :: cs) with
    | some (g, rest) => g :: findAllAux m fuel rest
    | none => findAllAux m fuel cs

/-- Matcher for `(\d+\s*N)` with `re.IGNORECASE` (tensile pattern 1, line 84).
Backtracking inside `\d+`/`\s*` cannot succeed (the follower is not in the
class), so maximal-run consumption is exact. -/
def tensileAt (l : Text) : Option (Text × Text) :=
  match takeDigits1 l with
  | none => none
  | some (ds, r1) =>
    let ws := r1.takeWhile pySpace
    match r1.dropWhile pySpace with
    | c :: rest => if c == 'N' || c == 'n' then some (ds ++ ws ++ [c], rest) else none
    | [] => none

/-- Matcher for `Installation\s*:\s*(\d+\s*N)`, `re.IGNORECASE` (line 85). -/
def instAt (l : Text) : Option (Text × Text) :=
  match dropLitCI "Installation".toList l with
  | none => none
  | some r1 =>
    match r1.dropWhile pySpace with
    | ':' :: r2 => tensileAt (r2.dropWhile pySpace)
    | _ => none

/-- Matcher for `Short Term\s*:\s*(\d+\s*N)`, `re.IGNORECASE` (line 86). -/
def shortTermAt (l : Text) : Option (Text × Text) :=
  match dropLitCI "Short Term".toList l with
  | none => none
  | some r1 =>
    match r1.dropWhile pySpace with
    | ':' :: r2 => tensileAt (r2.dropWhile pySpace)
    | _ => none

/-- Matcher for `(\d+\s*N/\d+\s*x?\s*\d*\s*cm)` / the `mm` variant,
`re.IGNORECASE` (lines 97-98); `u` is the lowercase unit letter. -/
def crushAt (u : Char) (l : Text) : Option (Text × Text) :=
  match takeDigits1 l with
  | none => none
  | some (ds1, r1) =>
    let ws1 := r1.takeWhile pySpace
    match r1.dropWhile pySpace with
    | n :: '/' :: r2 =>
      if n == 'N' || n == 'n' then
        match takeDigits1 r2 with
        | none => none
        | some (ds2, r3) =>
          let ws2 := r3.takeWhile pySpace
          let r4 := r3.dropWhile pySpace
          let xr :=
            match r4 with
            | c :: r5 => if c == 'x' || c == 'X' then ([c], r5) else ([], r4)
            | [] => ([], r4)
          let ws3 := xr.2.takeWhile pySpace
          let r6 := xr.2.dropWhile pySpace
          let ds3 := r6.takeWhile Char.isDigit
          let r7 := r6.dropWhile Char.isDigit
          let ws4 := r7.takeWhile pySpace
          match r7.dropWhile pySpace with
          | c1 :: c2 :: rest =>
            if c1.toLower == u && (c2 == 'm' || c2 == 'M') then
              some (ds1 ++ ws1 ++ [n] ++ '/' :: ds2 ++ ws2 ++ xr.1 ++ ws3 ++
                      ds3 ++ ws4 ++ [c1, c2], rest)
            else none
          | _ => none
      else none
    | _ => none

/-- Matcher for `(\d+\.\d+\s*±\s*\d+\.\d+\s*mm)`, `re.IGNORECASE` (line 109). -/
def diameterAt (l : Text) : Option (Text × Text) :=
  match takeDigits1 l with
  | none => none
  | some (a, r1) =>
    match r1 with
    | '.' :: r2 =>
      match takeDigits1 r2 with
      | none => none
      | some (b, r3) =>
        let ws1 := r3.takeWhile pySpace
        match r3.dropWhile pySpace with
        | '±' :: r4 =>
          let ws2 := r4.takeWhile pySpace
          match takeDigits1 (r4.dropWhile pySpace) with
          | none => none
          | some (c, r5) =>
            match r5 with
            | '.' :: r6 =>
              match takeDigits1 r6 with
              | none => none
              | some (d, r7) =>
                let ws3 := r7.takeWhile pySpace
                match r7.dropWhile pySpace with
                | m1 :: m2 :: rest =>
                  if (m1 == 'm' || m1 == 'M') && (m2 == 'm' || m2 == 'M') then
                    some (a ++ '.' :: b ++ ws1 ++ '±' :: ws2 ++ c ++ '.' :: d ++
                            ws3 ++ [m1, m2], rest)
                  else none
                | _ => none
            | _ => none
        | _ => none
    | _ => none

/-- Matcher for `(\-?\d+\s*°C)` with NO ignore-case flag (line 149):
the `C` must be a capital letter. -/
def tempAt (l : Text) : Option (Text × Text) :=
  let core := fun (pre : Text) (l1 : Text) =>
    match takeDigits1 l1 with
    | none => none
    | some (ds, r1) =>
      let ws := r1.takeWhile pySpace
      match r1.dropWhile pySpace with
      | '°' :: 'C' :: rest => some (pre ++ ds ++ ws ++ ['°', 'C'], rest)
      | _ => none
  match l with
  | '-' :: l1 => core ['-'] l1
  | _ => core [] l

/-- Matcher for `(\-?\d+\s*°C\s*to\s*\+\d+\s*°C)` with NO ignore-case flag
(line 144): `°C` and `to` are matched case-sensitively. -/
def nescRangeAt (l : Text) : Option (Text × Text) :=
  let core := fun (pre : Text) (l1 : Text) =>
    match takeDigits1 l1 with
    | none => none
    | some (ds1, r1) =>
      let ws1 := r1.takeWhile pySpace
      match r1.dropWhile pySpace with
      | '°' :: 'C' :: r2 =>
        let ws2 := r2.takeWhile pySpace
        match r2.dropWhile pySpace with
        | 't' :: 'o' :: r3 =>
          let ws3 := r3.takeWhile pySpace
          match r3.dropWhile pySpace with
          | '+' :: r4 =>
            match takeDigits1 r4 with
            | none => none
            | some (ds2, r5) =>
              let ws4 := r5.takeWhile pySpace
              match r5.dropWhile pySpace with
              | '°' :: 'C' :: rest =>
                some (pre ++ ds1 ++ ws1 ++ '°' :: 'C' :: ws2 ++ 't' :: 'o' :: ws3 ++
                        '+' :: ds2 ++ ws4 ++ ['°', 'C'], rest)
              | _ => none
          | _ => none
        | _ => none
      | _ => none
  match l with
  | '-' :: l1 => core ['-'] l1
  | _ => core [] l

/-- `re.findall(r"(\-?\d+\s*°C)", text)` (line 149). -/
def findTemps (text : Text) : List Text := findAllAux tempAt text.length text

/-! ## Attribute Extractors (combined_scraper.py lines 52-165) -/

/-- The five detailed description phrases tried first (lines 55-61). -/
def detailedDescPhrases : List Text :=
  ["Indoor LSZH loose-tube cable".toList,
   "Outdoor loose-tube cable".toList,
   "Armoured loose-tube cable".toList,
   "Micro loose-tube cable".toList,
   "Unarmoured loose-tube cable".toList]

/-- `_get_cable_description` (lines 52-72). -/
def _get_cable_description (text : Text) : Text :=
  match detailedDescPhrases.find? (fun p => containsL (lowerL p) (lowerL text)) with
  | some p => p
  | none =>
    if containsL "MTUA".toList text then "Indoor LSZH loose-tube cable".toList
    else if containsL "UTA".toList text then "Armoured loose-tube cable".toList
    else if containsL "MICRO".toList text then "Micro loose-tube cable".toList
    else if containsL "MT UA".toList text then "Unarmoured loose-tube cable".toList
    else "Optical Fiber Cable".toList

/-- `_extract_parameter_value` (lines 74-117).  The text is whitespace-
normalized first (line 79); each branch tries its patterns in source order
and returns the stripped first capture, falling through to `"N/A"`. -/
def _extract_parameter_value (text parameter_name : Text) : Text :=
  let text := normalizeWs text
  if lowerL parameter_name = "tensile strength".toList then
    match searchG tensileAt text with
    | some g => pyStrip g
    | none =>
      match searchG instAt text with
      | some g => pyStrip g
      | none =>
        match searchG shortTermAt text with
        | some g => pyStrip g
        | none => "N/A".toList
  else if lowerL parameter_name = "crush resistance".toList then
    match searchG (crushAt 'c') text with
    | some g => pyStrip g
    | none =>
      match searchG (crushAt 'm') text with
      | some g => pyStrip g
      | none => "N/A".toList
  else if lowerL parameter_name = "cable diameter".toList then
    match searchG diameterAt text with
    | some g => pyStrip g
    | none => "N/A".toList
  else "N/A".toList

/-- `_get_tube_type` (lines 119-124). -/
def _get_tube_type (text : Text) : Text :=
  if containsL "Unitube".toList text || containsL "UTA".toList text then "Unitube".toList
  else if containsL "Multitube".toList text || containsL "MTUA".toList text ||
          containsL "MT UA".toList text then "Multitube".toList
  else if containsL "Micro".toList text then "Micro".toList
  else "Standard".toList

/-- `_get_tube_color_coding` (lines 126-128). -/
def _get_tube_color_coding (_text : Text) : Text := "N/A".toList

/-- `_get_detailed_fiber_type` (lines 130-139). -/
def _get_detailed_fiber_type (text : Text) (fiber_count : Text) : Text :=
  if fiber_count = "144".toList ∨ fiber_count = "288".toList then "G.657A1".toList
  else if containsL "G.65".toList text then "G.652D".toList
  else if containsL "OM".toList text then "OM1".toList
  else "G.652D".toList

/-- `_get_nesc_condition` (lines 141-153); note that neither regex call
passes `re.IGNORECASE`. -/
def _get_nesc_condition (text : Text) : Text :=
  match searchG nescRangeAt text with
  | some g => pyStrip g
  | none =>
    let temps := findTemps text
    if temps ≠ [] then "Temperature range: ".toList ++ joinSep ", ".toList temps
    else "N/A".toList

/-- `_get_cable_type` (lines 155-159). -/
def _get_cable_type (text : Text) : Text :=
  if containsL "Unitube".toList text || containsL "UTA".toList text then "UT".toList
  else if containsL "Multitube".toList text || containsL "MTUA".toList text ||
          containsL "MT UA".toList text then "MT".toList
  else "N/A".toList

/-- `_get_fiber_type` (lines 161-165). -/
def _get_fiber_type (text : Text) : Text :=
  if containsL "G.65".toList text then "SM".toList
  else if containsL "OM".toList text then "MM".toList
  else "N/A".toList

/-! ## The CableRecord data model and the Variant Expander -/

/-- The record dictionary built at lines 190-206, with its 15 fields. -/
structure CableRecord where
  cableID : Nat
  cableDescription : Text
  fiberCount : Text
  typeofCable : Text
  span : Text
  tube : Text
  tubeColorCoding : Text
  fiberType : Text
  diameter : Text
  tensile : Text
  nescCondition : Text
  crush : Text
  blowingLength : Text
  datasheetURL : Text
  isActive : Text
deriving DecidableEq, Repr

/-- `_parse_single_datasheet` (lines 167-209): the Fiber-Count Detector
followed by the Variant Expander, one record per detected count. -/
def _parse_single_datasheet (filename text : Text) : List CableRecord :=
  let cable_description := _get_cable_description text
  let fiber_counts := fiberCountsOf text
  if fiber_counts = [] then []
  else
    fiber_counts.map fun fc =>
      { cableID := 0
        cableDescription := fc ++ 'F' :: ' ' :: cable_description
        fiberCount := fc ++ ['F']
        typeofCable := _get_cable_type text
        span := "N/A".toList
        tube := _get_tube_type text
        tubeColorCoding := "N/A".toList
        fiberType := _get_detailed_fiber_type text fc
        diameter := _extract_parameter_value text "cable diameter".toList
        tensile := _extract_parameter_value text "tensile strength".toList
        nescCondition := _get_nesc_condition text
        crush := _extract_parameter_value text "crush resistance".toList
        blowingLength := "N/A".toList
        datasheetURL := filename
        isActive := "Y".toList }

/-- The Batch Parser `parse_datasheets` (lines 211-228), generalised over
the per-document processing step so that the `try/except` of the source can
be modelled: a step returning `Except.error` corresponds to a document whose
processing raised, which the source catches, logs and skips.  The function
is total by construction: no error value ever escapes to the caller. -/
def parse_datasheetsE (ε : Type) (process : Text → Text → Except ε (List CableRecord)) :
    List (Text × Text) → List CableRecord
  | [] => []
  | (filename, content) :: rest =>
    (match process filename content with
     | Except.ok cables => cables.map fun c => { c with cableID := 0 }
     | Except.error _ => []) ++ parse_datasheetsE ε process rest

/-- `parse_datasheets` as shipped: every document is processed by
`_parse_single_datasheet`, which is total in the embedding. -/
def parse_datasheets (files : List (Text × Text)) : List CableRecord :=
  parse_datasheetsE Unit (fun filename content =>
    Except.ok (_parse_single_datasheet filename content)) files

/-! ## The Record Validator (combined_scraper.py lines 421-441) -/

/-- Input to the validator: a dictionary that may lack some of the six
required keys (`none` models a missing key on the fields the validator
reads; the other nine record fields are never inspected by it). -/
structure CableData where
  fiberCount : Option Text
  typeofCable : Option Text
  fiberType : Option Text
  diameter : Option Text
  tensile : Option Text
  crush : Option Text
deriving DecidableEq, Repr

/-- Python `s.replace('F', '')`: removes every capital `F`. -/
def pyReplaceF (s : Text) : Text := s.filter (fun c => c ≠ 'F')

/-- Python `s.isdigit()` (restricted to ASCII digits, which is all that the
parser ever produces): true iff nonempty and all digits. -/
def pyIsDigit (s : Text) : Bool := s ≠ [] && s.all Char.isDigit

/-- `validate_json_output` (lines 421-441).  The loop over
`required_fields` returns `False` as soon as a key is missing; the
fiber-count shape check (line 431) returns `False` when the count is truthy
and its `F`-free form is not all-digit; the `typeofCable` / `fiberType`
membership checks (lines 435-439) only print warnings and never change the
returned value, so they do not appear in the embedding. -/
def validate_json_output (cable_data : CableData) : Bool :=
  match cable_data.fiberCount, cable_data.typeofCable, cable_data.fiberType,
        cable_data.diameter, cable_data.tensile, cable_data.crush with
  | some fc, some _, some _, some _, some _, some _ =>
    if fc ≠ [] && !pyIsDigit (pyReplaceF fc) then false else true
  | _, _, _, _, _, _ => false

/-- View of a parser-produced record as validator input: all six keys are
present in the dictionary literal of lines 190-206. -/
def recordToCableData (r : CableRecord) : CableData :=
  { fiberCount := some r.fiberCount
    typeofCable := some r.typeofCable
    fiberType := some r.fiberType
    diameter := some r.diameter
    tensile := some r.tensile
    crush := some r.crush }

namespace MainPy

/-- `validate_json_output` of main.py (lines 7-27): identical to the
combined_scraper.py validator except for the digit-shape check, which at
main.py line 17 tests `cable_data['fiberCount'].isdigit()` directly, with no
`replace('F', '')` — so a fiber count carrying its trailing `F` fails it. -/
def validate_json_output (cable_data : CableData) : Bool :=
  match cable_data.fiberCount, cable_data.typeofCable, cable_data.fiberType,
        cable_data.diameter, cable_data.tensile, cable_data.crush with
  | some fc, some _, some _, some _, some _, some _ =>
    if fc ≠ [] && !pyIsDigit fc then false else true
  | _, _, _, _, _, _ => false

end MainPy

/-! ## Helper lemmas -/

theorem mem_insertByVal {x a : Text} : ∀ {l : List Text},
    x ∈ insertByVal a l ↔ x = a ∨ x ∈ l := by
  intro l
  induction l with
  | nil => simp [insertByVal]
  | cons b bs ih =>
    by_cases h : natOfDigits a ≤ natOfDigits b
    · simp [insertByVal, h]
    · simp only [insertByVal, if_neg h, List.mem_cons, ih]
      tauto

theorem pairwise_insertByVal (a : Text) {l : List Text}
    (h : l.Pairwise (fun x y => natOfDigits x ≤ natOfDigits y)) :
    (insertByVal a l).Pairwise (fun x y => natOfDigits x ≤ natOfDigits y) := by
  induction l with
  | nil => simp [insertByVal]
  | cons b bs ih =>
    rcases List.pairwise_cons.mp h with ⟨hb, hbs⟩
    by_cases hab : natOfDigits a ≤ natOfDigits b
    · simp only [insertByVal, if_pos hab]
      refine List.pairwise_cons.mpr ⟨?_, h⟩
      intro y hy
      rcases List.mem_cons.mp hy with rfl | hy'
      · exact hab
      · exact le_trans hab (hb y hy')
    · simp only [insertByVal, if_neg hab]
      refine List.pairwise_cons.mpr ⟨?_, ih hbs⟩
      intro y hy
      rcases mem_insertByVal.mp hy with rfl | hy'
      · exact le_of_not_le hab
      · exact hb y hy'

theorem nodup_insertByVal (a : Text) {l : List Text} (ha : a ∉ l) (h : l.Nodup) :
    (insertByVal a l).Nodup := by
  induction l with
  | nil => simp [insertByVal]
  | cons b bs ih =>
    rcases List.nodup_cons.mp h with ⟨hb, hbs⟩
    by_cases hab : natOfDigits a ≤ natOfDigits b
    · simp only [insertByVal, if_pos hab]
      exact List.nodup_cons.mpr ⟨ha, h⟩
    · simp only [insertByVal, if_neg hab]
      refine List.nodup_cons.mpr ⟨?_, ih (fun hmem => ha (List.mem_cons_of_mem _ hmem)) hbs⟩
      intro hmem
      rcases mem_insertByVal.mp hmem with rfl | hmem'
      · exact ha (List.mem_cons_self _ _)
      · exact hb hmem'

theorem mem_sortByVal {x : Text} : ∀ {l : List Text}, x ∈ sortByVal l ↔ x ∈ l := by
  intro l
  induction l with
  | nil => simp [sortByVal]
  | cons a as ih => simp [sortByVal, mem_insertByVal, ih]

theorem pairwise_sortByVal (l : List Text) :
    (sortByVal l).Pairwise (fun x y => natOfDigits x ≤ natOfDigits y) := by
  induction l with
  | nil => simp [sortByVal]
  | cons a as ih => exact pairwise_insertByVal a ih

theorem nodup_sortByVal {l : List Text} (h : l.Nodup) : (sortByVal l).Nodup := by
  induction l with
  | nil => simp [sortByVal]
  | cons a as ih =>
    rcases List.nodup_cons.mp h with ⟨ha, has⟩
    exact nodup_insertByVal a (fun hmem => ha (mem_sortByVal.mp hmem)) (ih has)

theorem mem_dedupF {x : Text} : ∀ {l : List Text}, x ∈ dedupF l ↔ x ∈ l := by
  intro l
  induction l with
  | nil => simp [dedupF]
  | cons a as ih =>
    simp only [dedupF, List.mem_cons, List.mem_filter, ih, decide_eq_true_eq]
    by_cases hxa : x = a
    · simp [hxa]
    · simp [hxa]

theorem nodup_dedupF : ∀ (l : List Text), (dedupF l).Nodup := by
  intro l
  induction l with
  | nil => simp [dedupF]
  | cons a as ih =>
    refine List.nodup_cons.mpr ⟨?_, ih.filter _⟩
    intro hmem
    rcases List.mem_filter.mp hmem with ⟨_, hne⟩
    exact (decide_eq_true_eq.mp hne) rfl

theorem scanFCAux_digits : ∀ (l run : Text), run.all Char.isDigit = true →
    ∀ t ∈ scanFCAux run l, t ≠ [] ∧ t.all Char.isDigit = true := by
  intro l
  induction l with
  | nil => intro run _ t ht; simp [scanFCAux] at ht
  | cons c cs ih =>
    intro run hrun t ht
    by_cases hd : c.isDigit
    · rw [scanFCAux, if_pos hd] at ht
      exact ih (run ++ [c]) (by simp [List.all_append, hrun, hd]) t ht
    · rw [scanFCAux, if_neg hd] at ht
      by_cases hF : (c == 'F' && decide (run ≠ [])) = true
      · rw [if_pos hF] at ht
        rcases List.mem_cons.mp ht with rfl | ht'
        · simp only [Bool.and_eq_true, decide_eq_true_eq] at hF
          exact ⟨hF.2, hrun⟩
        · exact ih [] rfl t ht'
      · rw [if_neg hF] at ht
        exact ih [] rfl t ht

theorem fiberCountsOf_mem {text fc : Text} (h : fc ∈ fiberCountsOf text) :
    fc ≠ [] ∧ fc.all Char.isDigit = true := by
  have h1 : fc ∈ pyFindallDF text := mem_dedupF.mp (mem_sortByVal.mp h)
  exact scanFCAux_digits text [] rfl fc h1

theorem mem_parse_single {filename text : Text} {r : CableRecord}
    (h : r ∈ _parse_single_datasheet filename text) :
    ∃ fc, fc ∈ fiberCountsOf text ∧
      r.cableID = 0 ∧
      r.cableDescription = fc ++ 'F' :: ' ' :: _get_cable_description text ∧
      r.fiberCount = fc ++ ['F'] ∧
      r.typeofCable = _get_cable_type text ∧
      r.span = "N/A".toList ∧
      r.tube = _get_tube_type text ∧
      r.tubeColorCoding = "N/A".toList ∧
      r.fiberType = _get_detailed_fiber_type text fc ∧
      r.diameter = _extract_parameter_value text "cable diameter".toList ∧
      r.tensile = _extract_parameter_value text "tensile strength".toList ∧
      r.nescCondition = _get_nesc_condition text ∧
      r.crush = _extract_parameter_value text "crush resistance".toList ∧
      r.blowingLength = "N/A".toList ∧
      r.datasheetURL = filename ∧
      r.isActive = "Y".toList := by
  unfold _parse_single_datasheet at h
  by_cases hfc : fiberCountsOf text = []
  · simp [hfc] at h
  · simp only [hfc, if_false, List.mem_map] at h
    obtain ⟨fc, hmem, rfl⟩ := h
    exact ⟨fc, hmem, rfl, rfl, rfl, rfl, rfl, rfl, rfl, rfl, rfl, rfl, rfl, rfl, rfl, rfl, rfl⟩

theorem pyFindall_tok48 (rest : Text) :
    pyFindallDF ("48F".toList ++ ' ' :: rest) = "48".toList :: pyFindallDF rest := rfl

theorem pyFindall_tok24 (rest : Text) :
    pyFindallDF ("24F".toList ++ ' ' :: rest) = "24".toList :: pyFindallDF rest := rfl

theorem pyFindall_tok96 (rest : Text) :
    pyFindallDF ("96F".toList ++ ' ' :: rest) = "96".toList :: pyFindallDF rest := rfl

theorem pyFindall_sepJoin : ∀ (l : List Text),
    (∀ t ∈ l, t = "48F".toList ∨ t = "24F".toList ∨ t = "96F".toList) →
    pyFindallDF (sepJoin l) = l.map List.dropLast := by
  intro l
  induction l with
  | nil => intro _; rfl
  | cons t ts ih =>
    intro h
    rcases ts with _ | ⟨u, us⟩
    · rcases h t (List.mem_cons_self t _) with rfl | rfl | rfl <;> rfl
    · have ih' := ih (fun x hx => h x (List.mem_cons_of_mem _ hx))
      rcases h t (List.mem_cons_self t _) with rfl | rfl | rfl
      · show pyFindallDF ("48F".toList ++ ' ' :: sepJoin (u :: us)) = _
        rw [pyFindall_tok48, ih']; rfl
      · show pyFindallDF ("24F".toList ++ ' ' :: sepJoin (u :: us)) = _
        rw [pyFindall_tok24, ih']; rfl
      · show pyFindallDF ("96F".toList ++ ' ' :: sepJoin (u :: us)) = _
        rw [pyFindall_tok96, ih']; rfl

theorem sortByVal_three_counts {m : List Text} (hnd : m.Nodup)
    (hmem : ∀ x, x ∈ m ↔ x ∈ ["24".toList, "48".toList, "96".toList]) :
    sortByVal m = ["24".toList, "48".toList, "96".toList] := by
  have hperm : m.Perm ["24".toList, "48".toList, "96".toList] :=
    (List.perm_ext_iff_of_nodup hnd (by decide)).mpr hmem
  obtain ⟨x, y, z, rfl⟩ := List.length_eq_three.mp hperm.length_eq
  have hx := (hmem x).mp (List.mem_cons_self _ _)
  have hy := (hmem y).mp (by simp)
  have hz := (hmem z).mp (by simp)
  simp only [List.mem_cons, List.not_mem_nil, or_false] at hx hy hz
  rcases List.nodup_cons.mp hnd with ⟨hxmem, hnd'⟩
  rcases List.nodup_cons.mp hnd' with ⟨hymem, _⟩
  simp only [List.mem_cons, List.not_mem_nil, or_false, not_or] at hxmem hymem
  have h24 : "24".toList ∈ [x, y, z] := (hmem _).mpr (by simp)
  have h48 : "48".toList ∈ [x, y, z] := (hmem _).mpr (by simp)
  have h96 : "96".toList ∈ [x, y, z] := (hmem _).mpr (by simp)
  rcases hx with rfl | rfl | rfl <;> rcases hy with rfl | rfl | rfl <;>
    rcases hz with rfl | rfl | rfl <;> simp_all <;> decide

/-! ## Claim theorems -/

/-- C1: the Fiber-Count Detector produces exactly the distinct digit-groups
captured by `(\d+)F` over the raw (non-normalized) text, sorted ascending by
numeric value; a text holding the tokens 48F, 24F, 96F in any order and with
any repetition yields exactly `[24, 48, 96]` with no duplicates; a text with
no match yields an empty sequence and hence zero records for the document. -/
theorem fiber_count_detector_correct :
    (∀ text : Text, (fiberCountsOf text).Nodup)
  ∧ (∀ text : Text,
      (fiberCountsOf text).Pairwise (fun a b => natOfDigits a ≤ natOfDigits b))
  ∧ (∀ text x : Text, x ∈ fiberCountsOf text ↔ x ∈ pyFindallDF text)
  ∧ (∀ l : List Text,
      (∀ t ∈ l, t = "48F".toList ∨ t = "24F".toList ∨ t = "96F".toList) →
      "48F".toList ∈ l → "24F".toList ∈ l → "96F".toList ∈ l →
      fiberCountsOf (sepJoin l) = ["24".toList, "48".toList, "96".toList])
  ∧ (∀ filename text : Text, pyFindallDF text = [] →
      _parse_single_datasheet filename text = []) := by
  refine ⟨?_, ?_, ?_, ?_, ?_⟩
  · intro text
    exact nodup_sortByVal (nodup_dedupF _)
  · intro text
    exact pairwise_sortByVal _
  · intro text x
    exact ⟨fun h => mem_dedupF.mp (mem_sortByVal.mp h),
           fun h => mem_sortByVal.mpr (mem_dedupF.mpr h)⟩
  · intro l h h48 h24 h96
    unfold fiberCountsOf
    rw [pyFindall_sepJoin l h]
    apply sortByVal_three_counts (nodup_dedupF _)
    intro x
    rw [mem_dedupF]
    constructor
    · intro hx
      rcases List.mem_map.mp hx with ⟨t, ht, rfl⟩
      rcases h t ht with rfl | rfl | rfl <;> decide
    · intro hx
      simp only [List.mem_cons, List.not_mem_nil, or_false] at hx
      rcases hx with rfl | rfl | rfl
      · exact List.mem_map.mpr ⟨_, h24, rfl⟩
      · exact List.mem_map.mpr ⟨_, h48, rfl⟩
      · exact List.mem_map.mpr ⟨_, h96, rfl⟩
  · intro filename text h
    have hfc : fiberCountsOf text = [] := by
      unfold fiberCountsOf
      rw [h]
      rfl
    unfold _parse_single_datasheet
    simp [hfc]

/-- Witness for C1: a concrete repetition `48F 96F 24F 48F` detects exactly
`[24, 48, 96]`, and a text with no `(\d+)F` match produces zero records. -/
theorem fiber_count_detector_correct_witness :
    fiberCountsOf (sepJoin ["48F".toList, "96F".toList, "24F".toList, "48F".toList]) =
      ["24".toList, "48".toList, "96".toList]
  ∧ _parse_single_datasheet "a.pdf".toList "no counts here".toList = [] :=
  ⟨fiber_count_detector_correct.2.2.2.1
      ["48F".toList, "96F".toList, "24F".toList, "48F".toList]
      (by decide) (by decide) (by decide) (by decide),
   fiber_count_detector_correct.2.2.2.2 "a.pdf".toList "no counts here".toList (by decide)⟩

/-- C3: the fiber-type extractor returns `G.657A1` whenever the fiber-count
argument is `144` or `288`, regardless of the text (the count check precedes
text inspection); otherwise `G.652D` if the text contains `G.65`, else `OM1`
if it contains `OM`, else the default `G.652D`. -/
theorem detailed_fiber_type_rules :
    (∀ text : Text, _get_detailed_fiber_type text "144".toList = "G.657A1".toList)
  ∧ (∀ text : Text, _get_detailed_fiber_type text "288".toList = "G.657A1".toList)
  ∧ (∀ text fc : Text, fc ≠ "144".toList → fc ≠ "288".toList →
      _get_detailed_fiber_type text fc =
        if containsL "G.65".toList text then "G.652D".toList
        else if containsL "OM".toList text then "OM1".toList
        else "G.652D".toList) := by
  refine ⟨?_, ?_, ?_⟩
  · intro text
    simp [_get_detailed_fiber_type]
  · intro text
    simp [_get_detailed_fiber_type]
  · intro text fc h1 h2
    unfold _get_detailed_fiber_type
    rw [if_neg (not_or.mpr ⟨h1, h2⟩)]

/-- Witness for C3: count 144 overrides `OM` text; count 12 with `OM` text
falls through to the text rules. -/
theorem detailed_fiber_type_rules_witness :
    _get_detailed_fiber_type "OM data".toList "144".toList = "G.657A1".toList
  ∧ _get_detailed_fiber_type "OM data".toList "12".toList = "OM1".toList :=
  ⟨detailed_fiber_type_rules.1 "OM data".toList,
   by
    rw [detailed_fiber_type_rules.2.2 "OM data".toList "12".toList (by decide) (by decide)]
    decide⟩

/-- C4: records produced from the same document text agree on every field
other than `fiberCount`, `cableDescription` and `fiberType`, and every
produced record has `cableID = 0`, `isActive = "Y"`, `span = "N/A"`,
`tubeColorCoding = "N/A"` and `blowingLength = "N/A"`. -/
theorem variant_expander_shared_fields :
    (∀ filename text : Text, ∀ r1 r2 : CableRecord,
      r1 ∈ _parse_single_datasheet filename text →
      r2 ∈ _parse_single_datasheet filename text →
      r1.cableID = r2.cableID ∧ r1.typeofCable = r2.typeofCable ∧
      r1.span = r2.span ∧ r1.tube = r2.tube ∧
      r1.tubeColorCoding = r2.tubeColorCoding ∧ r1.diameter = r2.diameter ∧
      r1.tensile = r2.tensile ∧ r1.nescCondition = r2.nescCondition ∧
      r1.crush = r2.crush ∧ r1.blowingLength = r2.blowingLength ∧
      r1.datasheetURL = r2.datasheetURL ∧ r1.isActive = r2.isActive)
  ∧ (∀ filename text : Text, ∀ r : CableRecord,
      r ∈ _parse_single_datasheet filename text →
      r.cableID = 0 ∧ r.isActive = "Y".toList ∧ r.span = "N/A".toList ∧
      r.tubeColorCoding = "N/A".toList ∧ r.blowingLength = "N/A".toList) := by
  constructor
  · intro filename text r1 r2 h1 h2
    obtain ⟨fc1, _, hA1, _, _, hA4, hA5, hA6, hA7, _, hA9, hA10, hA11, hA12,
            hA13, hA14, hA15⟩ := mem_parse_single h1
    obtain ⟨fc2, _, hB1, _, _, hB4, hB5, hB6, hB7, _, hB9, hB10, hB11, hB12,
            hB13, hB14, hB15⟩ := mem_parse_single h2
    exact ⟨hA1.trans hB1.symm, hA4.trans hB4.symm, hA5.trans hB5.symm,
           hA6.trans hB6.symm, hA7.trans hB7.symm, hA9.trans hB9.symm,
           hA10.trans hB10.symm, hA11.trans hB11.symm, hA12.trans hB12.symm,
           hA13.trans hB13.symm, hA14.trans hB14.symm, hA15.trans hB15.symm⟩
  · intro filename text r h
    obtain ⟨fc, _, h1, _, _, _, hspan, _, htcc, _, _, _, _, _, hblow, _, hact⟩ :=
      mem_parse_single h
    exact ⟨h1, hact, hspan, htcc, hblow⟩

/-- Witness for C4: the two records of the document `"96F 24F"` share their
per-document fields, and the first carries the forced constants. -/
theorem variant_expander_shared_fields_witness :
    ((⟨0, "24F Optical Fiber Cable".toList, "24F".toList, "N/A".toList, "N/A".toList,
        "Standard".toList, "N/A".toList, "G.652D".toList, "N/A".toList, "N/A".toList,
        "N/A".toList, "N/A".toList, "N/A".toList, "d.pdf".toList, "Y".toList⟩ :
        CableRecord).tensile =
      (⟨0, "96F Optical Fiber Cable".toList, "96F".toList, "N/A".toList, "N/A".toList,
        "Standard".toList, "N/A".toList, "G.652D".toList, "N/A".toList, "N/A".toList,
        "N/A".toList, "N/A".toList, "N/A".toList, "d.pdf".toList, "Y".toList⟩ :
        CableRecord).tensile)
  ∧ (⟨0, "24F Optical Fiber Cable".toList, "24F".toList, "N/A".toList, "N/A".toList,
      "Standard".toList, "N/A".toList, "G.652D".toList, "N/A".toList, "N/A".toList,
      "N/A".toList, "N/A".toList, "N/A".toList, "d.pdf".toList, "Y".toList⟩ :
      CableRecord).cableID = 0 :=
  ⟨(variant_expander_shared_fields.1 "d.pdf".toList "96F 24F".toList _ _
      (by decide) (by decide)).2.2.2.2.2.2.1,
   (variant_expander_shared_fields.2 "d.pdf".toList "96F 24F".toList _ (by decide)).1⟩

/-- C5: every produced record satisfies
`cableDescription = fiberCount ++ " " ++ baseDescription`, where
`baseDescription` is the Description Extractor's output on the same text. -/
theorem cable_description_round_trip :
    ∀ filename text : Text, ∀ r : CableRecord,
      r ∈ _parse_single_datasheet filename text →
      r.cableDescription = r.fiberCount ++ ' ' :: _get_cable_description text := by
  intro filename text r h
  obtain ⟨fc, _, _, hdesc, hfcnt, _⟩ := mem_parse_single h
  rw [hdesc, hfcnt, List.append_assoc]
  rfl

/-- Witness for C5: the round trip at the document `"12F"`. -/
theorem cable_description_round_trip_witness :
    (⟨0, "12F Optical Fiber Cable".toList, "12F".toList, "N/A".toList, "N/A".toList,
      "Standard".toList, "N/A".toList, "G.652D".toList, "N/A".toList, "N/A".toList,
      "N/A".toList, "N/A".toList, "N/A".toList, "doc.pdf".toList, "Y".toList⟩ :
      CableRecord).cableDescription =
    (⟨0, "12F Optical Fiber Cable".toList, "12F".toList, "N/A".toList, "N/A".toList,
      "Standard".toList, "N/A".toList, "G.652D".toList, "N/A".toList, "N/A".toList,
      "N/A".toList, "N/A".toList, "N/A".toList, "doc.pdf".toList, "Y".toList⟩ :
      CableRecord).fiberCount ++ ' ' :: _get_cable_description "12F".toList :=
  cable_description_round_trip "doc.pdf".toList "12F".toList _ (by decide)

theorem map_setID_parse_single (filename text : Text) :
    (_parse_single_datasheet filename text).map
      (fun c => { c with cableID := 0 }) = _parse_single_datasheet filename text := by
  have h : ∀ r ∈ _parse_single_datasheet filename text,
      ({ r with cableID := 0 } : CableRecord) = r := by
    intro r hr
    obtain ⟨fc, _, h0, _⟩ := mem_parse_single hr
    cases r
    simp_all
  calc (_parse_single_datasheet filename text).map (fun c => { c with cableID := 0 })
      = (_parse_single_datasheet filename text).map id := List.map_congr_left h
    _ = _parse_single_datasheet filename text := List.map_id _

/-- C2: the Batch Parser never lets a per-document failure escape: a failing
document contributes zero records while every other document is still
processed; the output is the concatenation of per-document results in
mapping iteration order, and within one document records are ordered by
ascending fiber count.  (In the embedding a document whose processing raises
is a `process` returning `Except.error`; `parse_datasheetsE` returns a plain
list, so no error value can propagate to the caller by construction.) -/
theorem batch_parser_isolates_failures :
    (∀ (ε : Type) (process : Text → Text → Except ε (List CableRecord))
       (files : List (Text × Text)),
      parse_datasheetsE ε process files =
        (files.map (fun fc =>
          match process fc.1 fc.2 with
          | Except.ok cables => cables.map (fun c => { c with cableID := 0 })
          | Except.error _ => [])).flatten)
  ∧ (∀ (ε : Type) (process : Text → Text → Except ε (List CableRecord))
       (pre post : List (Text × Text)) (filename content : Text) (e : ε),
      process filename content = Except.error e →
      parse_datasheetsE ε process (pre ++ (filename, content) :: post) =
        parse_datasheetsE ε process (pre ++ post))
  ∧ (∀ filename text : Text,
      (_parse_single_datasheet filename text).Pairwise
        (fun r1 r2 =>
          natOfDigits r1.fiberCount.dropLast ≤ natOfDigits r2.fiberCount.dropLast))
  ∧ (∀ (ε : Type) (process : Text → Text → Except ε (List CableRecord))
       (fn1 c1 fn2 c2 : Text) (e : ε),
      process fn1 c1 = Except.ok (_parse_single_datasheet fn1 c1) →
      process fn2 c2 = Except.error e →
      parse_datasheetsE ε process [(fn1, c1), (fn2, c2)] =
        _parse_single_datasheet fn1 c1) := by
  refine ⟨?_, ?_, ?_, ?_⟩
  · intro ε process files
    induction files with
    | nil => rfl
    | cons p rest ih =>
      obtain ⟨fn, cn⟩ := p
      simp only [parse_datasheetsE, List.map_cons, List.flatten_cons, ih]
  · intro ε process pre post filename content e herr
    induction pre with
    | nil =>
      simp only [List.nil_append, parse_datasheetsE, herr]
    | cons p ps ih =>
      obtain ⟨fn, cn⟩ := p
      simp only [List.cons_append, parse_datasheetsE]
      congr 1
  · intro filename text
    unfold _parse_single_datasheet
    by_cases hfc : fiberCountsOf text = []
    · simp [hfc]
    · simp only [hfc, if_false]
      refine List.pairwise_map.mpr ((pairwise_sortByVal _).imp ?_)
      intro a b hab
      simpa [List.dropLast_concat] using hab
  · intro ε process fn1 c1 fn2 c2 e h1 h2
    simp only [parse_datasheetsE, h1, h2, List.append_nil]
    exact map_setID_parse_single fn1 c1

/-- Witness for C2: a two-document batch whose second document fails yields
exactly the first document's records, with no error escaping. -/
theorem batch_parser_isolates_failures_witness :
    parse_datasheetsE Unit
      (fun fn c =>
        if fn = "bad.pdf".toList then Except.error ()
        else Except.ok (_parse_single_datasheet fn c))
      [("good.pdf".toList, "24F 48F".toList), ("bad.pdf".toList, "96F".toList)] =
      _parse_single_datasheet "good.pdf".toList "24F 48F".toList :=
  batch_parser_isolates_failures.2.2.2 Unit
    (fun fn c =>
      if fn = "bad.pdf".toList then Except.error ()
      else Except.ok (_parse_single_datasheet fn c))
    "good.pdf".toList "24F 48F".toList "bad.pdf".toList "96F".toList ()
    (by simp) (by simp)

theorem ne_true_of_false {b : Bool} (h : b = false) : ¬b = true := by
  simp [h]

theorem digit_ne_F {c : Char} (h : c.isDigit = true) : ¬c = 'F' := by
  intro hc
  subst hc
  exact absurd h (by decide)

theorem validate_digitsF (ds tc ft dia ten cr : Text)
    (hne : ds ≠ []) (hdig : ds.all Char.isDigit = true) :
    validate_json_output
      ⟨some (ds ++ ['F']), some tc, some ft, some dia, some ten, some cr⟩ = true := by
  have hrep : pyReplaceF (ds ++ ['F']) = ds := by
    unfold pyReplaceF
    rw [List.filter_append]
    rw [List.filter_eq_self.mpr (fun a ha => by
      simpa using digit_ne_F (List.all_eq_true.mp hdig a ha))]
    simp
  show (if (ds ++ ['F']) ≠ [] && !pyIsDigit (pyReplaceF (ds ++ ['F'])) then false
        else true) = true
  rw [hrep]
  have hd : pyIsDigit ds = true := by
    unfold pyIsDigit
    simp [hne, hdig]
  rw [hd]
  simp

/-- C6 counterexample: the claim covers both cited Record Validators, but the
one of main.py (lines 7-27) tests `fiberCount.isdigit()` without stripping
the trailing `F` (main.py line 17), so on a record holding all six required
keys with `fiberCount = "12F"` it returns false — not true as claimed. -/
theorem record_validator_main_py_cex :
    MainPy.validate_json_output ⟨some "12F".toList, some "UT".toList, some "SM".toList,
      some "N/A".toList, some "N/A".toList, some "N/A".toList⟩ = false := by
  decide

/-- C6 amended: for a record with all six required keys, the
combined_scraper.py validator (whose digit-shape check removes every `F`
from `fiberCount` before the all-digit test) returns true on fiber count
`"12F"` — and in general on any nonempty all-digit count followed by `"F"`
— and returns false on `"12X"`; the main.py validator instead tests
`fiberCount.isdigit()` without stripping the `F` and therefore returns
false on `"12F"` (and on any count carrying its trailing `F`) as well as on
`"12X"`; in both validators the `typeofCable` / `fiberType` membership
checks emit warnings only and never change the boolean result. -/
theorem record_validator_behavior :
    (∀ (d : CableData) (ds : Text),
      d.fiberCount = some (ds ++ ['F']) → d.typeofCable.isSome = true →
      d.fiberType.isSome = true → d.diameter.isSome = true →
      d.tensile.isSome = true → d.crush.isSome = true →
      ds ≠ [] → ds.all Char.isDigit = true → validate_json_output d = true)
  ∧ validate_json_output ⟨some "12F".toList, some "UT".toList, some "SM".toList,
      some "N/A".toList, some "N/A".toList, some "N/A".toList⟩ = true
  ∧ validate_json_output ⟨some "12X".toList, some "UT".toList, some "SM".toList,
      some "N/A".toList, some "N/A".toList, some "N/A".toList⟩ = false
  ∧ (∀ (d : CableData) (a b a' b' : Text),
      validate_json_output { d with typeofCable := some a, fiberType := some b } =
        validate_json_output { d with typeofCable := some a', fiberType := some b' })
  ∧ (∀ (d : CableData) (ds : Text),
      d.fiberCount = some (ds ++ ['F']) → d.typeofCable.isSome = true →
      d.fiberType.isSome = true → d.diameter.isSome = true →
      d.tensile.isSome = true → d.crush.isSome = true →
      MainPy.validate_json_output d = false)
  ∧ (MainPy.validate_json_output ⟨some "12F".toList, some "UT".toList, some "SM".toList,
      some "N/A".toList, some "N/A".toList, some "N/A".toList⟩ = false
    ∧ MainPy.validate_json_output ⟨some "12X".toList, some "UT".toList, some "SM".toList,
      some "N/A".toList, some "N/A".toList, some "N/A".toList⟩ = false)
  ∧ (∀ (d : CableData) (a b a' b' : Text),
      MainPy.validate_json_output { d with typeofCable := some a, fiberType := some b } =
        MainPy.validate_json_output { d with typeofCable := some a', fiberType := some b' }) := by
  refine ⟨?_, by decide, by decide, ?_, ?_, ⟨by decide, by decide⟩, ?_⟩
  · intro d ds hfc htc hft hdia hten hcr hne hdig
    obtain ⟨f0, t0, y0, d0, e0, c0⟩ := d
    simp only at hfc
    subst hfc
    obtain ⟨tv, rfl⟩ := Option.isSome_iff_exists.mp htc
    obtain ⟨yv, rfl⟩ := Option.isSome_iff_exists.mp hft
    obtain ⟨dv, rfl⟩ := Option.isSome_iff_exists.mp hdia
    obtain ⟨ev, rfl⟩ := Option.isSome_iff_exists.mp hten
    obtain ⟨cv, rfl⟩ := Option.isSome_iff_exists.mp hcr
    exact validate_digitsF ds tv yv dv ev cv hne hdig
  · intro d a b a' b'
    obtain ⟨f0, t0, y0, d0, e0, c0⟩ := d
    cases f0 <;> cases d0 <;> cases e0 <;> cases c0 <;> rfl
  · intro d ds hfc htc hft hdia hten hcr
    obtain ⟨f0, t0, y0, d0, e0, c0⟩ := d
    simp only at hfc
    subst hfc
    obtain ⟨tv, rfl⟩ := Option.isSome_iff_exists.mp htc
    obtain ⟨yv, rfl⟩ := Option.isSome_iff_exists.mp hft
    obtain ⟨dv, rfl⟩ := Option.isSome_iff_exists.mp hdia
    obtain ⟨ev, rfl⟩ := Option.isSome_iff_exists.mp hten
    obtain ⟨cv, rfl⟩ := Option.isSome_iff_exists.mp hcr
    have h1 : pyIsDigit (ds ++ ['F']) = false := by
      have hF : Char.isDigit 'F' = false := rfl
      unfold pyIsDigit
      simp [List.all_append, hF]
    show (if (ds ++ ['F']) ≠ [] && !pyIsDigit (ds ++ ['F']) then false else true) = false
    rw [if_pos (by simp [h1])]
  · intro d a b a' b'
    obtain ⟨f0, t0, y0, d0, e0, c0⟩ := d
    cases f0 <;> cases d0 <;> cases e0 <;> cases c0 <;> rfl

/-- Witness for C6: a full record with fiber count `"48F"` validates under
the combined_scraper.py validator and fails under the main.py validator. -/
theorem record_validator_behavior_witness :
    validate_json_output ⟨some "48F".toList, some "MT".toList, some "G.652D".toList,
      some "N/A".toList, some "500 N".toList, some "N/A".toList⟩ = true
  ∧ MainPy.validate_json_output ⟨some "48F".toList, some "MT".toList, some "G.652D".toList,
      some "N/A".toList, some "500 N".toList, some "N/A".toList⟩ = false :=
  ⟨record_validator_behavior.1
     ⟨some "48F".toList, some "MT".toList, some "G.652D".toList,
      some "N/A".toList, some "500 N".toList, some "N/A".toList⟩
     "48".toList (by decide) rfl rfl rfl rfl rfl (by decide) (by decide),
   record_validator_behavior.2.2.2.2.1
     ⟨some "48F".toList, some "MT".toList, some "G.652D".toList,
      some "N/A".toList, some "500 N".toList, some "N/A".toList⟩
     "48".toList (by decide) rfl rfl rfl rfl rfl⟩

/-- C7: every Attribute Extractor is total (all embeddings below are Lean
functions, hence return a value on every input string) and degrades to its
documented fallback when none of its patterns matches: `"N/A"` for diameter,
tensile, crush, NESC condition and cable type, `"Standard"` for tube type,
`"Optical Fiber Cable"` for description, `"G.652D"` for fiber type; a
document containing only `"12F"` yields exactly one record with every field
at its fallback. -/
theorem extractor_total_fallbacks :
    (∀ text : Text,
      searchG tensileAt (normalizeWs text) = none →
      searchG instAt (normalizeWs text) = none →
      searchG shortTermAt (normalizeWs text) = none →
      _extract_parameter_value text "tensile strength".toList = "N/A".toList)
  ∧ (∀ text : Text,
      searchG (crushAt 'c') (normalizeWs text) = none →
      searchG (crushAt 'm') (normalizeWs text) = none →
      _extract_parameter_value text "crush resistance".toList = "N/A".toList)
  ∧ (∀ text : Text,
      searchG diameterAt (normalizeWs text) = none →
      _extract_parameter_value text "cable diameter".toList = "N/A".toList)
  ∧ (∀ text : Text,
      searchG nescRangeAt text = none → findTemps text = [] →
      _get_nesc_condition text = "N/A".toList)
  ∧ (∀ text : Text,
      containsL "Unitube".toList text = false → containsL "UTA".toList text = false →
      containsL "Multitube".toList text = false → containsL "MTUA".toList text = false →
      containsL "MT UA".toList text = false → _get_cable_type text = "N/A".toList)
  ∧ (∀ text : Text,
      containsL "Unitube".toList text = false → containsL "UTA".toList text = false →
      containsL "Multitube".toList text = false → containsL "MTUA".toList text = false →
      containsL "MT UA".toList text = false → containsL "Micro".toList text = false →
      _get_tube_type text = "Standard".toList)
  ∧ (∀ text : Text,
      (∀ p ∈ detailedDescPhrases, containsL (lowerL p) (lowerL text) = false) →
      containsL "MTUA".toList text = false → containsL "UTA".toList text = false →
      containsL "MICRO".toList text = false → containsL "MT UA".toList text = false →
      _get_cable_description text = "Optical Fiber Cable".toList)
  ∧ (∀ text fc : Text, fc ≠ "144".toList → fc ≠ "288".toList →
      containsL "G.65".toList text = false → containsL "OM".toList text = false →
      _get_detailed_fiber_type text fc = "G.652D".toList)
  ∧ _parse_single_datasheet "doc.pdf".toList "12F".toList =
      [⟨0, "12F Optical Fiber Cable".toList, "12F".toList, "N/A".toList, "N/A".toList,
        "Standard".toList, "N/A".toList, "G.652D".toList, "N/A".toList, "N/A".toList,
        "N/A".toList, "N/A".toList, "N/A".toList, "doc.pdf".toList, "Y".toList⟩] := by
  refine ⟨?_, ?_, ?_, ?_, ?_, ?_, ?_, ?_, by decide⟩
  · intro text h1 h2 h3
    simp only [_extract_parameter_value]
    rw [if_pos (by decide), h1, h2, h3]
  · intro text h1 h2
    simp only [_extract_parameter_value]
    rw [if_neg (by decide), if_pos (by decide), h1, h2]
  · intro text h1
    simp only [_extract_parameter_value]
    rw [if_neg (by decide), if_neg (by decide), if_pos (by decide), h1]
  · intro text h1 h2
    unfold _get_nesc_condition
    rw [h1]
    simp [h2]
  · intro text h1 h2 h3 h4 h5
    unfold _get_cable_type
    rw [if_neg (ne_true_of_false (by rw [h1, h2]; rfl)),
        if_neg (ne_true_of_false (by rw [h3, h4, h5]; rfl))]
  · intro text h1 h2 h3 h4 h5 h6
    unfold _get_tube_type
    rw [if_neg (ne_true_of_false (by rw [h1, h2]; rfl)),
        if_neg (ne_true_of_false (by rw [h3, h4, h5]; rfl)),
        if_neg (ne_true_of_false h6)]
  · intro text hphr h1 h2 h3 h4
    unfold _get_cable_description
    rw [List.find?_eq_none.mpr (fun p hp => by simp [hphr p hp])]
    rw [if_neg (ne_true_of_false h1), if_neg (ne_true_of_false h2),
        if_neg (ne_true_of_false h3), if_neg (ne_true_of_false h4)]
  · intro text fc h1 h2 h3 h4
    unfold _get_detailed_fiber_type
    rw [if_neg (not_or.mpr ⟨h1, h2⟩), if_neg (ne_true_of_false h3),
        if_neg (ne_true_of_false h4)]

/-- Witness for C7: the text `"hello world 5"` matches no extractor pattern,
so every extractor returns its fallback. -/
theorem extractor_total_fallbacks_witness :
    _extract_parameter_value "hello world 5".toList "tensile strength".toList = "N/A".toList
  ∧ _extract_parameter_value "hello world 5".toList "crush resistance".toList = "N/A".toList
  ∧ _extract_parameter_value "hello world 5".toList "cable diameter".toList = "N/A".toList
  ∧ _get_nesc_condition "hello world 5".toList = "N/A".toList
  ∧ _get_cable_type "hello world 5".toList = "N/A".toList
  ∧ _get_tube_type "hello world 5".toList = "Standard".toList
  ∧ _get_cable_description "hello world 5".toList = "Optical Fiber Cable".toList
  ∧ _get_detailed_fiber_type "hello world 5".toList "12".toList = "G.652D".toList :=
  ⟨extractor_total_fallbacks.1 _ (by decide) (by decide) (by decide),
   extractor_total_fallbacks.2.1 _ (by decide) (by decide),
   extractor_total_fallbacks.2.2.1 _ (by decide),
   extractor_total_fallbacks.2.2.2.1 _ (by decide) (by decide),
   extractor_total_fallbacks.2.2.2.2.1 _ (by decide) (by decide) (by decide) (by decide)
     (by decide),
   extractor_total_fallbacks.2.2.2.2.2.1 _ (by decide) (by decide) (by decide) (by decide)
     (by decide) (by decide),
   extractor_total_fallbacks.2.2.2.2.2.2.1 _ (by decide) (by decide) (by decide) (by decide)
     (by decide),
   extractor_total_fallbacks.2.2.2.2.2.2.2.1 _ _ (by decide) (by decide) (by decide)
     (by decide)⟩

/-- C8: on a document whose text contains `"UTA"`, whose first
digits-then-`N` match is `"1500 N"`, whose first diameter match is
`"2.5 ± 0.1 mm"`, whose temperature-range match is `"-40°C to +70°C"` and
whose only fiber-count token is `"48F"`, the parser emits exactly one record
with `typeofCable="UT"`, `tube="Unitube"`, `tensile="1500 N"`,
`diameter="2.5 ± 0.1 mm"`, `nescCondition="-40°C to +70°C"` and
`fiberCount="48F"`. -/
theorem uta_scenario_record :
    ∀ filename text : Text,
      pyFindallDF text = ["48".toList] →
      containsL "UTA".toList text = true →
      searchG tensileAt (normalizeWs text) = some "1500 N".toList →
      searchG diameterAt (normalizeWs text) = some "2.5 ± 0.1 mm".toList →
      searchG nescRangeAt text = some "-40°C to +70°C".toList →
      (_parse_single_datasheet filename text).length = 1 ∧
      ∀ r ∈ _parse_single_datasheet filename text,
        r.typeofCable = "UT".toList ∧ r.tube = "Unitube".toList ∧
        r.tensile = "1500 N".toList ∧ r.diameter = "2.5 ± 0.1 mm".toList ∧
        r.nescCondition = "-40°C to +70°C".toList ∧ r.fiberCount = "48F".toList := by
  intro filename text h1 h2 h3 h4 h5
  have hfc : fiberCountsOf text = ["48".toList] := by
    unfold fiberCountsOf
    rw [h1]
    decide
  constructor
  · unfold _parse_single_datasheet
    simp [hfc]
  · intro r hr
    obtain ⟨fc, hmem, _, _, hfcnt, htype, _, htube, _, _, hdia, hten, hnesc, _⟩ :=
      mem_parse_single hr
    rw [hfc] at hmem
    simp only [List.mem_cons, List.not_mem_nil, or_false] at hmem
    subst hmem
    refine ⟨?_, ?_, ?_, ?_, ?_, ?_⟩
    · rw [htype]
      unfold _get_cable_type
      rw [if_pos (by rw [h2, Bool.or_true])]
    · rw [htube]
      unfold _get_tube_type
      rw [if_pos (by rw [h2, Bool.or_true])]
    · rw [hten]
      simp only [_extract_parameter_value]
      rw [if_pos (by decide), h3]
      exact rfl
    · rw [hdia]
      simp only [_extract_parameter_value]
      rw [if_neg (by decide), if_neg (by decide), if_pos (by decide), h4]
      exact rfl
    · rw [hnesc]
      unfold _get_nesc_condition
      rw [h5]
      exact rfl
    · rw [hfcnt]
      decide

/-- Witness for C8: the concrete scenario text of the spec. -/
theorem uta_scenario_record_witness :
    (_parse_single_datasheet "a.pdf".toList
      "UTA cable 48F Installation: 1500 N 2.5 ± 0.1 mm -40°C to +70°C".toList).length = 1
  ∧ (⟨0, "48F Armoured loose-tube cable".toList, "48F".toList, "UT".toList,
      "N/A".toList, "Unitube".toList, "N/A".toList, "G.652D".toList,
      "2.5 ± 0.1 mm".toList, "1500 N".toList, "-40°C to +70°C".toList, "N/A".toList,
      "N/A".toList, "a.pdf".toList, "Y".toList⟩ : CableRecord) ∈
      _parse_single_datasheet "a.pdf".toList
        "UTA cable 48F Installation: 1500 N 2.5 ± 0.1 mm -40°C to +70°C".toList
  ∧ (⟨0, "48F Armoured loose-tube cable".toList, "48F".toList, "UT".toList,
      "N/A".toList, "Unitube".toList, "N/A".toList, "G.652D".toList,
      "2.5 ± 0.1 mm".toList, "1500 N".toList, "-40°C to +70°C".toList, "N/A".toList,
      "N/A".toList, "a.pdf".toList, "Y".toList⟩ : CableRecord).typeofCable = "UT".toList := by
  have h := uta_scenario_record "a.pdf".toList
    "UTA cable 48F Installation: 1500 N 2.5 ± 0.1 mm -40°C to +70°C".toList
    (by decide) (by decide) (by decide) (by decide) (by decide)
  exact ⟨h.1, by decide, (h.2 _ (by decide)).1⟩

/-- C9 counterexample: the claim asserts that on lower-case temperature text
such as `"-40 °c to +70 °c"` the NESC extractor still matches the range, but
`_get_nesc_condition` calls `re.search`/`re.findall` without `re.IGNORECASE`
(lines 144 and 149), so neither pattern matches a lower-case `°c` and the
extractor returns `"N/A"` instead of the range. -/
theorem nesc_case_sensitivity_cex :
    _get_nesc_condition "-40 °c to +70 °c".toList = "N/A".toList ∧
    "N/A".toList ≠ "-40 °c to +70 °c".toList := by
  exact ⟨by decide, by decide⟩

/-- C9 amended: regex matching in the tensile, crush and diameter extractors
is case-insensitive (and the brand-token substring checks case-sensitive),
but the NESC-condition extractor's two patterns are case-sensitive: on
`"-40 °c to +70 °c"` it returns `"N/A"`, while the upper-case variant
matches the full range. -/
theorem regex_case_sensitivity_amended :
    _extract_parameter_value "Force 1500 n".toList "tensile strength".toList =
      "1500 n".toList
  ∧ _extract_parameter_value "2.5 ± 0.1 MM".toList "cable diameter".toList =
      "2.5 ± 0.1 MM".toList
  ∧ _extract_parameter_value "300 N/10 CM".toList "crush resistance".toList =
      "300 N/10 CM".toList
  ∧ _get_nesc_condition "-40 °c to +70 °c".toList = "N/A".toList
  ∧ _get_nesc_condition "-40 °C to +70 °C".toList = "-40 °C to +70 °C".toList := by
  exact ⟨by decide, by decide, by decide, by decide, by decide⟩

/-- C10 (implicit): every record the Variant Expander produces passes the
Record Validator of combined_scraper.py: all six required keys are present,
the produced fiber count is digits followed by `F` so the digit-shape check
passes, and although the produced `fiberType` is always one of
`G.652D`, `OM1`, `G.657A1` — never in the validator's accepted set
`{SM, MM, N/A}` — the membership checks never make the result false. -/
theorem parser_output_always_valid :
    (∀ filename text : Text, ∀ r : CableRecord,
      r ∈ _parse_single_datasheet filename text →
      validate_json_output (recordToCableData r) = true)
  ∧ (∀ text fc : Text,
      _get_detailed_fiber_type text fc = "G.652D".toList ∨
      _get_detailed_fiber_type text fc = "OM1".toList ∨
      _get_detailed_fiber_type text fc = "G.657A1".toList)
  ∧ (∀ v : Text,
      v = "G.652D".toList ∨ v = "OM1".toList ∨ v = "G.657A1".toList →
      ¬(v = "SM".toList ∨ v = "MM".toList ∨ v = "N/A".toList)) := by
  refine ⟨?_, ?_, ?_⟩
  · intro filename text r h
    obtain ⟨fc, hmem, _, _, hfcnt, _⟩ := mem_parse_single h
    obtain ⟨hne, hdig⟩ := fiberCountsOf_mem hmem
    show validate_json_output ⟨some r.fiberCount, some r.typeofCable, some r.fiberType,
      some r.diameter, some r.tensile, some r.crush⟩ = true
    rw [hfcnt]
    exact validate_digitsF fc r.typeofCable r.fiberType r.diameter r.tensile r.crush
      hne hdig
  · intro text fc
    unfold _get_detailed_fiber_type
    split
    · right
      right
      rfl
    · split
      · left
        rfl
      · split
        · right
          left
          rfl
        · left
          rfl
  · intro v hv
    rcases hv with rfl | rfl | rfl <;> decide

/-- Witness for C10: the record produced from the document `"12F"` passes the
validator. -/
theorem parser_output_always_valid_witness :
    validate_json_output (recordToCableData
      ⟨0, "12F Optical Fiber Cable".toList, "12F".toList, "N/A".toList, "N/A".toList,
       "Standard".toList, "N/A".toList, "G.652D".toList, "N/A".toList, "N/A".toList,
       "N/A".toList, "N/A".toList, "N/A".toList, "doc.pdf".toList, "Y".toList⟩) = true :=
  parser_output_always_valid.1 "doc.pdf".toList "12F".toList _ (by decide)

end CombinedScraper
